import Mathlib

/-!
Shallow embedding of the cortex Helmholtz-machine layer
(`cortex/models/helmholtz.py`) and of the setup script (`cortex/__init__.py`),
with theorems checking the natural-language specification against the code.

Conventions of the embedding:
* Python exceptions (`ValueError`, `KeyError`, `AssertionError`) become
  `Except String`.
* Theano symbolic tensors become a deep expression type `Expr`: the code under
  scrutiny only *builds* the computation graph, so claims about it are claims
  about the built expressions.
* The classes `MLP`, `Distribution` and helpers from `utils.tools`
  (`models/mlp.py`, `models/distributions.py`, `utils/tools.py`) are not part
  of the sources; where a claim depends on them they are modelled from the
  spec, each such definition carrying a doc comment saying so.
-/

namespace Cortex

/-- Runtime class of a prior distribution object, as tested by the
`isinstance` chain in `Helmholtz.__init__` (helmholtz.py lines 112-122).
`other` stands for any distribution class outside the four supported ones. -/
inductive PriorClass where
  | binomial
  | gaussian
  | logistic
  | laplace
  | other
  deriving DecidableEq, Repr

/-- Prior distribution object (`Distribution` instance).  The class itself
lives in `models/distributions.py`, outside the sources; the fields here are
exactly the attributes the helmholtz.py code reads: `dim`, `get_params()`
(as `params`), `n_params`, `has_kl`, `name`, plus the runtime class. -/
structure Prior where
  cls : PriorClass
  dim : Nat
  params : List Int
  n_params : Nat
  has_kl : Bool
  name : String
  deriving DecidableEq, Repr

/-- Feed-forward network object (`MLP` instance).  The class lives in
`models/mlp.py`, outside the sources; the fields are the attributes the
helmholtz.py code reads: input/output dimensions, the output distribution
(`none` models Python `None`), `get_params()` (as `params`), `n_params`,
whether the attached distribution has a tractable KL
(`posterior.distribution.has_kl`), and `name`. -/
structure MLP where
  dim_in : Nat
  dim_out : Nat
  distribution : Option String
  params : List Int
  n_params : Nat
  dist_has_kl : Bool
  name : String
  deriving DecidableEq, Repr

/-- The composed Helmholtz machine: posterior (recognition) network,
conditional (generative) network, prior over latents, the latent dimension
`dim_h`, and the layer name. -/
structure Helmholtz where
  posterior : MLP
  conditional : MLP
  prior : Prior
  dim_h : Nat
  name : String
  deriving DecidableEq, Repr

/-- The `_components` class attribute (helmholtz.py line 93). -/
def Helmholtz._components : List String := ["posterior", "conditional", "prior"]

/-- Embedding of `Helmholtz.__init__` (helmholtz.py lines 95-127): stores the
three components, sets `dim_h` from the prior's dimension, and when no name
is given resolves one from the prior's runtime class, raising `ValueError`
for an unsupported class. -/
def Helmholtz.init (posterior conditional : MLP) (prior : Prior)
    (name : Option String := none) : Except String Helmholtz :=
  let dim_h := prior.dim
  match name with
  | some n => .ok ⟨posterior, conditional, prior, dim_h, n⟩
  | none =>
    match prior.cls with
    | .binomial => .ok ⟨posterior, conditional, prior, dim_h, "sbn"⟩
    | .gaussian => .ok ⟨posterior, conditional, prior, dim_h, "gbn"⟩
    | .logistic => .ok ⟨posterior, conditional, prior, dim_h, "lbn"⟩
    | .laplace => .ok ⟨posterior, conditional, prior, dim_h, "labn"⟩
    | .other => .error "Prior type not supported"

/-- Embedding of `Helmholtz.set_params` (helmholtz.py lines 224-231): resets
the layer's own parameters (not modelled: the base `Layer` class is outside
the sources) and renames the three components. -/
def Helmholtz.set_params (hm : Helmholtz) : Helmholtz :=
  { hm with
    prior := { hm.prior with name := hm.name ++ "_" ++ hm.prior.name }
    posterior := { hm.posterior with name := hm.name ++ "_posterior" }
    conditional := { hm.conditional with name := hm.name ++ "_conditional" } }

/-- Embedding of `Helmholtz.get_params` (helmholtz.py lines 248-255): the
prior's parameters, then the conditional's, then the posterior's. -/
def Helmholtz.get_params (hm : Helmholtz) : List Int :=
  hm.prior.params ++ hm.conditional.params ++ hm.posterior.params

/-- Embedding of `Helmholtz.get_prior_params` (helmholtz.py lines 257-268):
the first `prior.n_params` entries of the given parameter list. -/
def Helmholtz.get_prior_params (hm : Helmholtz) (params : List Int) : List Int :=
  params.take hm.prior.n_params

/-- Embedding of `Helmholtz.get_posterior_params` (helmholtz.py lines
270-283): the slice `params[start:stop]` with
`start = prior.n_params + conditional.n_params` and
`stop = start + posterior.n_params`. -/
def Helmholtz.get_posterior_params (hm : Helmholtz) (params : List Int) : List Int :=
  (params.drop (hm.prior.n_params + hm.conditional.n_params)).take hm.posterior.n_params

/-- Graph description for `dag`-type generative networks
(`gen_args['graph']` in helmholtz.py lines 209-213): a list of output-layer
names and an association from layer name to (dimension, distribution). -/
structure Graph where
  outputs : List String
  outs : List (String × (Nat × String))
  deriving DecidableEq, Repr

/-- Keyword-argument dictionary passed as `rec_args` / `gen_args` to
`Helmholtz.mlp_factory`.  Only the keys the helmholtz.py code reads or writes
are modelled; `none` models an absent key (or Python `None`). -/
structure MLPArgs where
  type : Option String := none
  distribution : Option String := none
  dim_in : Option Nat := none
  dim_out : Option Nat := none
  input_layer : Option String := none
  output : Option String := none
  graph : Option Graph := none
  deriving DecidableEq, Repr

/-- Modelled from the spec: `resolve` in `models/distributions.py` is not
under the sources.  Per the spec's error-handling design, unsupported
distribution/prior type strings raise immediately at model-construction
time; the four supported prior types resolve to their classes. -/
def resolve_prior (s : String) : Except String PriorClass :=
  if s = "binomial" then .ok .binomial
  else if s = "gaussian" then .ok .gaussian
  else if s = "logistic" then .ok .logistic
  else if s = "laplace" then .ok .laplace
  else .error ("unsupported prior type " ++ s)

/-- Modelled from the spec: instantiating a prior distribution class at a
given dimension (`PC(dim_h)`, helmholtz.py line 189); the class itself lives
in `models/distributions.py`, outside the sources.  Fields other than the
class and the dimension belong to that missing code and take inert defaults
(no claim depends on them). -/
def Prior.make (cls : PriorClass) (dim : Nat) : Prior :=
  { cls := cls, dim := dim, params := [], n_params := 0, has_kl := false,
    name := "" }

/-- Modelled from the spec: `MLP.factory` (`models/mlp.py`, not under the
sources) builds a composable sub-network with the input/output dimensions
and output distribution given in the keyword arguments. -/
def MLP.factory (args : MLPArgs) : Except String MLP :=
  match args.dim_in, args.dim_out with
  | some di, some dout =>
    .ok { dim_in := di, dim_out := dout, distribution := args.distribution,
          params := [], n_params := 0, dist_has_kl := false, name := "" }
  | _, _ => .error "MLP.factory: missing dimension"

/-- Modelled from the spec: the factory of a `dag`-type generative network
(the DAG MLP class is not under the sources).  The output layer of the built
network takes its dimension and distribution from the graph's `outs` entry
for the designated output name. -/
def MLP.factoryDag (args : MLPArgs) (output_name : String) : Except String MLP :=
  match args.graph with
  | none => .error "KeyError: graph"
  | some g =>
    match g.outs.lookup output_name with
    | some (d, dist) =>
      .ok { dim_in := args.dim_in.getD 0, dim_out := d,
            distribution := some dist, params := [], n_params := 0,
            dist_has_kl := false, name := "" }
    | none => .error "KeyError: output not in graph outs"

/-- Dictionary assignment `outs[output_name] = dict(dim=..., distribution=...)`
on the association list of a graph. -/
def Graph.setOut (g : Graph) (key : String) (dim : Nat) (dist : String) : Graph :=
  if (g.outs.lookup key).isSome then
    { g with outs := g.outs.map (fun p => if p.1 = key then (key, (dim, dist)) else p) }
  else
    { g with outs := g.outs ++ [(key, (dim, dist))] }

/-- Embedding of `Helmholtz.mlp_factory` (helmholtz.py lines 154-222).
Defaulted `rec_args`/`gen_args` become empty dictionaries; the prior string
is resolved (defaulting to the recognition distribution, then to
`"binomial"`); the recognition network gets `dim_in`/`dim_h` and the prior's
distribution when it has none; the generative network gets `dim_h` as input
and, outside the `dag` case, `dim_out` and the data distribution as output;
in the `dag` case the graph's `outs` entry for `gen_args['output']` is
rewritten once per listed output.  Reading the absent `gen_args['output']`
key raises, as does a missing distribution at the final asserts.  The branch
accepting a `Distribution` instance for `prior` (line 185) exercises only
code outside the sources and is not modelled; claims pass strings. -/
def Helmholtz.mlp_factory (dim_in dim_h dim_out : Nat)
    (data_distribution : String) (prior : Option String := none)
    (rec_args gen_args : Option MLPArgs := none) :
    Except String (MLP × MLP × Prior) :=
  let rec_args := rec_args.getD {}
  let gen_args := gen_args.getD {}
  let priorName :=
    match prior with
    | some p => p
    | none =>
      match rec_args.distribution with
      | none => "binomial"
      | some d => d
  match resolve_prior priorName with
  | .error e => .error e
  | .ok pc =>
    let prior_model := Prior.make pc dim_h
    let rec_args :=
      if rec_args.distribution = none then
        { rec_args with distribution := some priorName }
      else rec_args
    let rec_args := { rec_args with dim_in := some dim_in, dim_out := some dim_h }
    match MLP.factory rec_args with
    | .error e => .error e
    | .ok posterior =>
      match gen_args.output with
      | none => .error "KeyError: output"
      | some output_name =>
        let gen_args := { gen_args with dim_in := some dim_h }
        let conditionalE :=
          if gen_args.type = some "dag" then
            match gen_args.graph with
            | none => .error "KeyError: graph"
            | some g =>
              let g' := if g.outputs = [] then g
                        else g.setOut output_name dim_out data_distribution
              MLP.factoryDag { gen_args with graph := some g' } output_name
          else
            let gen_args' :=
              { gen_args with
                dim_out := some dim_out
                distribution := some data_distribution }
            MLP.factory gen_args'
        match conditionalE with
        | .error e => .error e
        | .ok conditional =>
          if conditional.distribution = none then .error "AssertionError"
          else if posterior.distribution = none then .error "AssertionError"
          else .ok (posterior, conditional, prior_model)

/-- Embedding of `Helmholtz.factory` (helmholtz.py lines 129-152): `dim_out`
defaults to `dim_in`; passing `None` for `data_distribution` trips the
assert (the Python default of the keyword is the string `'binomial'`,
mirrored in the Lean default); the three components from `mlp_factory` are
assembled by `Helmholtz.__init__` with no explicit name. -/
def Helmholtz.factory (dim_in dim_h : Nat) (dim_out : Option Nat := none)
    (data_distribution : Option String := some "binomial")
    (prior : Option String := none) (rec_args gen_args : Option MLPArgs := none) :
    Except String Helmholtz :=
  let dim_out := dim_out.getD dim_in
  match data_distribution with
  | none => .error "AssertionError: data_distribution is None"
  | some dd =>
    match Helmholtz.mlp_factory dim_in dim_h dim_out dd prior rec_args gen_args with
    | .error e => .error e
    | .ok (p, c, pr) => Helmholtz.init p c pr none

/-- One entry of the model list returned by `unpack`. -/
inductive PyObj where
  | model (h : Helmholtz)
  | net (m : MLP)
  | dist (p : Prior)
  deriving DecidableEq, Repr

/-- Embedding of `unpack` (helmholtz.py lines 37-76): a missing
`data_distribution` raises `ValueError` before any model is formed;
otherwise the Helmholtz machine is built through `Helmholtz.factory`
(`dim_out` is accepted but never forwarded) and the result is the list
`[model, posterior, conditional, prior]`, the saved-parameter keyword
arguments unchanged, and a final `None`. -/
def unpack (dim_in dim_h : Nat) (dim_out : Option Nat := none)
    (prior : Option String := none) (data_distribution : Option String := none)
    (rec_args gen_args : Option MLPArgs := none)
    (model_args : List (String × Int) := []) :
    Except String (List PyObj × List (String × Int) × Option Unit) :=
  match data_distribution with
  | none => .error "data_distribution must be set. Pass data_distribution as a keyword argument."
  | some dd =>
    let _ := dim_out
    match Helmholtz.factory dim_in dim_h none (some dd) prior rec_args gen_args with
    | .error e => .error e
    | .ok m =>
      .ok ([.model m, .net m.posterior, .net m.conditional, .dist m.prior],
           model_args, none)

/-- Deep embedding of the Theano expressions built by `Helmholtz.__call__`
and `Helmholtz.log_marginal`.  Each constructor is one graph-building
operation the helmholtz.py code invokes; component methods carry the
component's role name (`"posterior"`, `"conditional"`, `"prior"`). -/
inductive Expr where
  /-- a free symbolic variable (the inputs `x`, `y`) -/
  | var (s : String)
  /-- `e[None, :, :]` broadcasting over the sample axis -/
  | lift (e : Expr)
  /-- `e[0]` -/
  | idx0 (e : Expr)
  /-- `net.feed(e)` -/
  | feed (net : String) (x : Expr)
  /-- `net.neg_log_prob(y, p)` -/
  | negLogProb2 (net : String) (y p : Expr)
  /-- `prior.neg_log_prob(h)` -/
  | negLogProb1 (net : String) (h : Expr)
  /-- `dist.step_sample(r, p)` -/
  | stepSample (net : String) (r p : Expr)
  /-- `posterior.distribution.prototype_samples((n, y.shape[0], dim_h))` -/
  | protoSamples (n : Nat) (y : Expr) (dimH : Nat)
  /-- `prior.entropy()` -/
  | entropy0 (net : String)
  /-- `net.entropy(q)` -/
  | entropy1 (net : String) (q : Expr)
  /-- `prior.kl_divergence(q)` -/
  | klDiv (net : String) (q : Expr)
  /-- `dist.step_kl_divergence(qk, *split)` -/
  | stepKL (net : String) (qk q0split : Expr)
  /-- `dist.split_prob(q)` -/
  | splitProb (net : String) (q : Expr)
  /-- `prior.get_prob(*params)` -/
  | getProb (net : String) (p : Expr)
  /-- `prior.get_params()` as a graph input -/
  | getParams (net : String)
  /-- first component of `net.sample(p)` -/
  | sampleFst (net : String) (p : Expr)
  /-- `get_w_tilde(e)` -/
  | wTilde (e : Expr)
  /-- `log_sum_exp(e, axis=0)` -/
  | logSumExp0 (e : Expr)
  /-- `T.log(n)` for a Python int -/
  | logNat (n : Nat)
  /-- `-e` -/
  | neg (e : Expr)
  /-- `a + b` -/
  | add (a b : Expr)
  /-- `a - b` -/
  | sub (a b : Expr)
  /-- `a * b` -/
  | mul (a b : Expr)
  /-- `e ** 2` -/
  | sq (e : Expr)
  /-- `1. / e` -/
  | oneOver (e : Expr)
  /-- `T.log(e)` -/
  | logE (e : Expr)
  /-- `e.sum(0)` -/
  | sum0 (e : Expr)
  /-- `e.sum(1)` -/
  | sum1 (e : Expr)
  /-- `e.sum((0, 1))` -/
  | sum01 (e : Expr)
  /-- `e.mean(0)` -/
  | mean0 (e : Expr)
  /-- `e.mean()` -/
  | meanAll (e : Expr)
  /-- `T.zeros_like(e)` -/
  | zerosLike (e : Expr)
  deriving DecidableEq, Repr

/-- Result of a call to the composed model: the `results` ordered dictionary,
the `samples` ordered dictionary, and the `constants` list (updates carry no
content in the embedding and are omitted). -/
structure CallResult where
  results : List (String × Expr)
  samples : List (String × Expr)
  constants : List Expr
  deriving DecidableEq, Repr

namespace CallGraph

/-- Sub-expressions shared by the objectives `Helmholtz.__call__` builds,
written once so both the embedding and the theorems can name them.
`q0 = posterior.feed(x)`. -/
def q0 (x : Expr) : Expr := Expr.feed "posterior" x

/-- The effective approximate posterior: the given `qk` or `q0`. -/
def qkOf (x : Expr) (qk? : Option Expr) : Expr := qk?.getD (q0 x)

/-- The latent samples `h` drawn through the posterior distribution. -/
def hSamples (m : Helmholtz) (x y : Expr) (qk? : Option Expr) (n : Nat) : Expr :=
  Expr.stepSample "posterior" (Expr.protoSamples n y m.dim_h)
    (Expr.lift (qkOf x qk?))

/-- `log p(y|h)` under the conditional. -/
def log_py_h (m : Helmholtz) (x y : Expr) (qk? : Option Expr) (n : Nat) : Expr :=
  Expr.neg (Expr.negLogProb2 "conditional" (Expr.lift y)
    (Expr.feed "conditional" (hSamples m x y qk? n)))

/-- `log p(h)` under the prior. -/
def log_ph (m : Helmholtz) (x y : Expr) (qk? : Option Expr) (n : Nat) : Expr :=
  Expr.neg (Expr.negLogProb1 "prior" (hSamples m x y qk? n))

/-- `log q(h)` under the posterior parameters `q0`. -/
def log_qh0 (m : Helmholtz) (x y : Expr) (qk? : Option Expr) (n : Nat) : Expr :=
  Expr.neg (Expr.negLogProb2 "posterior" (hSamples m x y qk? n)
    (Expr.lift (q0 x)))

/-- `log q(h)` under the posterior parameters `qk`. -/
def log_qhk (m : Helmholtz) (x y : Expr) (qk? : Option Expr) (n : Nat) : Expr :=
  Expr.neg (Expr.negLogProb2 "posterior" (hSamples m x y qk? n)
    (Expr.lift (qkOf x qk?)))

/-- The unnormalised log importance weights `log p(y|h) + log p(h) - log q_k(h)`. -/
def logW (m : Helmholtz) (x y : Expr) (qk? : Option Expr) (n : Nat) : Expr :=
  Expr.sub (Expr.add (log_py_h m x y qk? n) (log_ph m x y qk? n))
    (log_qhk m x y qk? n)

/-- The normalised importance weights `w_tilde`. -/
def w_tilde (m : Helmholtz) (x y : Expr) (qk? : Option Expr) (n : Nat) : Expr :=
  Expr.wTilde (logW m x y qk? n)

/-- `recon_term = -log p(y|h)`. -/
def recon_term (m : Helmholtz) (x y : Expr) (qk? : Option Expr) (n : Nat) : Expr :=
  Expr.neg (log_py_h m x y qk? n)

/-- The `KL_term`: the analytic `KL(q_k||p)` when the prior has one and no
reweighting is requested, otherwise `-log p(h) - H(q)`. -/
def KL_term (m : Helmholtz) (x y : Expr) (qk? : Option Expr) (n : Nat)
    (reweight reweight_gen_only : Bool) : Expr :=
  if m.prior.has_kl && !reweight && !reweight_gen_only then
    Expr.klDiv "prior" (qkOf x qk?)
  else
    Expr.sub (Expr.neg (log_ph m x y qk? n)) (Expr.entropy1 "posterior" (qkOf x qk?))

/-- The `posterior_term`: zero when gradients pass through `qk`, the analytic
`KL(q_k||q_0)` when available and no reweighting is requested, otherwise
`-log q_0(h)`. -/
def posterior_term (m : Helmholtz) (x y : Expr) (qk? : Option Expr) (n : Nat)
    (pass_gradients reweight reweight_gen_only : Bool) : Expr :=
  if !pass_gradients then
    if m.posterior.dist_has_kl && !reweight && !reweight_gen_only then
      Expr.stepKL "posterior" (qkOf x qk?) (Expr.splitProb "posterior" (q0 x))
    else
      Expr.neg (log_qh0 m x y qk? n)
  else
    Expr.zerosLike (log_qh0 m x y qk? n)

/-- Latent samples `h_s` drawn from the prior in the sleep phase. -/
def h_s (m : Helmholtz) (y : Expr) (n : Nat) : Expr :=
  Expr.stepSample "prior" (Expr.protoSamples n y m.dim_h)
    (Expr.getProb "prior" (Expr.getParams "prior"))

/-- Data `y_s` sampled from the conditional on the prior samples. -/
def y_s (m : Helmholtz) (y : Expr) (n : Nat) : Expr :=
  Expr.sampleFst "conditional" (Expr.feed "conditional" (h_s m y n))

/-- The sleep-phase recognition log-probability: prior samples `h_s` scored
under the posterior evaluated on the sampled data `y_s[0]`. -/
def sleep_log_qh0 (m : Helmholtz) (y : Expr) (n : Nat) : Expr :=
  Expr.neg (Expr.negLogProb2 "posterior" (h_s m y n)
    (Expr.feed "posterior" (Expr.idx0 (y_s m y n))))

/-- The sleep-phase cost (helmholtz.py lines 496-497): the `w_tilde`
reweighted generative term plus the recognition term on prior samples,
negated. -/
def sleepCost (m : Helmholtz) (x y : Expr) (qk? : Option Expr) (n : Nat) : Expr :=
  Expr.neg (Expr.add
    (Expr.sum01 (Expr.mul (w_tilde m x y qk? n)
      (Expr.add (log_py_h m x y qk? n) (log_ph m x y qk? n))))
    (Expr.mean0 (Expr.sum1 (sleep_log_qh0 m y n))))

/-- The fully reweighted cost (helmholtz.py line 500). -/
def reweightCost (m : Helmholtz) (x y : Expr) (qk? : Option Expr) (n : Nat) : Expr :=
  Expr.neg (Expr.sum01 (Expr.mul (w_tilde m x y qk? n)
    (Expr.add (Expr.add (log_py_h m x y qk? n) (log_ph m x y qk? n))
      (log_qh0 m x y qk? n))))

/-- The generative-only reweighted cost (helmholtz.py lines 503-504). -/
def reweightGenCost (m : Helmholtz) (x y : Expr) (qk? : Option Expr) (n : Nat) : Expr :=
  Expr.neg (Expr.add
    (Expr.sum01 (Expr.mul (w_tilde m x y qk? n)
      (Expr.add (log_py_h m x y qk? n) (log_ph m x y qk? n))))
    (Expr.mean0 (Expr.sum1 (log_qh0 m x y qk? n))))

/-- The default variational cost (helmholtz.py line 507): the lower-bound
terms summed over the batch and averaged over samples. -/
def vlbCost (m : Helmholtz) (x y : Expr) (qk? : Option Expr) (n : Nat)
    (pass_gradients reweight reweight_gen_only : Bool) : Expr :=
  Expr.mean0 (Expr.sum1 (Expr.add
    (Expr.add (recon_term m x y qk? n)
      (KL_term m x y qk? n reweight reweight_gen_only))
    (posterior_term m x y qk? n pass_gradients reweight reweight_gen_only)))

/-- The constants accumulated before the cost branch: `qk` when it is given
and gradients do not pass through it. -/
def baseConstants (qk? : Option Expr) (pass_gradients : Bool) : List Expr :=
  match qk? with
  | none => []
  | some q => if pass_gradients then [] else [q]

end CallGraph

/-- Embedding of `Helmholtz.__call__` (helmholtz.py lines 405-524), built
line by line from the code: the posterior is fed `x`, latents are sampled,
the log-probability terms, entropies and the log marginal are formed, the
`KL`/posterior terms follow the availability of analytic KLs and the
`pass_gradients`/reweighting flags, and the cost is the sleep-phase
objective, the reweighted objectives, or the variational objective, in the
code's branch order.  The `results` and `samples` ordered dictionaries and
the `constants` list are returned. -/
def Helmholtz.call (m : Helmholtz) (x y : Expr) (qk? : Option Expr := none)
    (n_posterior_samples : Nat := 10) (pass_gradients : Bool := false)
    (reweight : Bool := false) (reweight_gen_only : Bool := false)
    (sleep_phase : Bool := false) : CallResult :=
  let n := n_posterior_samples
  let q0 := Expr.feed "posterior" x
  let qk := qk?.getD q0
  let constants : List Expr :=
    match qk? with
    | none => []
    | some q => if pass_gradients then [] else [q]
  let r := Expr.protoSamples n y m.dim_h
  let h := Expr.stepSample "posterior" r (Expr.lift qk)
  let py_h := Expr.feed "conditional" h
  let log_py_h := Expr.neg (Expr.negLogProb2 "conditional" (Expr.lift y) py_h)
  let log_ph := Expr.neg (Expr.negLogProb1 "prior" h)
  let log_qh0 := Expr.neg (Expr.negLogProb2 "posterior" h (Expr.lift q0))
  let log_qhk := Expr.neg (Expr.negLogProb2 "posterior" h (Expr.lift qk))
  let prior_entropy := Expr.entropy0 "prior"
  let q_entropy := Expr.entropy1 "posterior" qk
  let log_p := Expr.sub
    (Expr.logSumExp0 (Expr.sub (Expr.add log_py_h log_ph) log_qhk))
    (Expr.logNat n)
  let recon_term := Expr.neg log_py_h
  let kl1 :=
    if m.prior.has_kl && !reweight && !reweight_gen_only then
      (([("KL(q_k||p)", Expr.klDiv "prior" qk)] : List (String × Expr)),
       Expr.klDiv "prior" qk)
    else
      ([("-log p(h)", Expr.meanAll (Expr.neg log_ph))],
       Expr.sub (Expr.neg log_ph) q_entropy)
  let results1 := kl1.1
  let KL_term := kl1.2
  let kl2 :=
    if !pass_gradients then
      if m.posterior.dist_has_kl && !reweight && !reweight_gen_only then
        (([("KL(q_k||q_0)",
            Expr.stepKL "posterior" qk (Expr.splitProb "posterior" q0))] :
           List (String × Expr)),
         Expr.stepKL "posterior" qk (Expr.splitProb "posterior" q0))
      else
        ([("-log q(h)", Expr.neg (Expr.meanAll log_qh0))], Expr.neg log_qh0)
    else
      ([], Expr.zerosLike log_qh0)
  let results2 := kl2.1
  let posterior_term := kl2.2
  let lower_bound := Expr.neg (Expr.meanAll (Expr.add recon_term KL_term))
  let w_tilde := Expr.wTilde (Expr.sub (Expr.add log_py_h log_ph) log_qhk)
  let results3 :=
    [("log ESS", Expr.meanAll (Expr.logE (Expr.oneOver (Expr.sum0 (Expr.sq w_tilde)))))]
  let branch :=
    if sleep_phase then
      let r2 := Expr.protoSamples n y m.dim_h
      let h_s := Expr.stepSample "prior" r2
        (Expr.getProb "prior" (Expr.getParams "prior"))
      let py_h_s := Expr.feed "conditional" h_s
      let y_s := Expr.sampleFst "conditional" py_h_s
      let q0_s := Expr.feed "posterior" (Expr.idx0 y_s)
      let s_log_qh0 := Expr.neg (Expr.negLogProb2 "posterior" h_s q0_s)
      (Expr.neg (Expr.add
        (Expr.sum01 (Expr.mul w_tilde (Expr.add log_py_h log_ph)))
        (Expr.mean0 (Expr.sum1 s_log_qh0))),
       constants ++ [y_s, w_tilde])
    else if reweight then
      (Expr.neg (Expr.sum01 (Expr.mul w_tilde
        (Expr.add (Expr.add log_py_h log_ph) log_qh0))),
       constants ++ [w_tilde])
    else if reweight_gen_only then
      (Expr.neg (Expr.add
        (Expr.sum01 (Expr.mul w_tilde (Expr.add log_py_h log_ph)))
        (Expr.mean0 (Expr.sum1 log_qh0))),
       constants ++ [w_tilde])
    else
      (Expr.mean0 (Expr.sum1 (Expr.add (Expr.add recon_term KL_term) posterior_term)),
       constants)
  let cost := branch.1
  let constants' := branch.2
  let results := results1 ++ results2 ++ results3 ++
    [("-log p(x|h)", Expr.meanAll recon_term),
     ("-log p(x)", Expr.neg (Expr.mean0 log_p)),
     ("H(p)", prior_entropy),
     ("H(q)", Expr.mean0 q_entropy),
     ("lower_bound", lower_bound),
     ("cost", cost)]
  { results := results,
    samples := [("py", py_h), ("batch_energies", recon_term), ("w_tilde", w_tilde)],
    constants := constants' }

/-! Numeric core of the two log-marginal estimators (claim C8).  The
estimators act elementwise over the batch; their per-datum core maps the
vector of log-ratios over the `n+1` posterior samples to a scalar. -/

/-- Modelled from the spec: `log_sum_exp(·, axis=0)` from `utils/tools.py`
is not under the sources; it denotes the logarithm of the sum of
exponentials along the sample axis. -/
noncomputable def log_sum_exp {n : Nat} (v : Fin (n + 1) → ℝ) : ℝ :=
  Real.log (∑ i, Real.exp (v i))

/-- Per-datum core of `Helmholtz.log_marginal` (helmholtz.py lines 363-367):
with `log_p_max` the maximum over the sample axis and
`w = exp(log_p - log_p_max)`, the value `log(w.mean(axis=0)) + log_p_max`. -/
noncomputable def log_marginal_stabilized {n : Nat} (v : Fin (n + 1) → ℝ) : ℝ :=
  Real.log ((∑ i, Real.exp (v i - Finset.univ.sup' Finset.univ_nonempty v)) /
      ((n : ℝ) + 1)) +
    Finset.univ.sup' Finset.univ_nonempty v

/-- Per-datum core of the `log_p` line of `Helmholtz.__call__` (helmholtz.py
lines 454-455): `log_sum_exp(log_p, axis=0) - T.log(n_posterior_samples)`. -/
noncomputable def log_marginal_direct {n : Nat} (v : Fin (n + 1) → ℝ) : ℝ :=
  log_sum_exp v - Real.log ((n : ℝ) + 1)

/-! Model of the setup script `cortex/__init__.py` (claim C7).  Interactive
inputs and the outcomes of the two dataset fetchers are an environment; the
run produces the ordered trace of externally visible steps, or propagates an
uncaught exception. -/

/-- Outcome of a dataset fetcher call: success, `urllib2.HTTPError`, or any
other exception (which the script does not catch). -/
inductive FetchOutcome where
  | success
  | httpError
  | otherError (msg : String)
  deriving DecidableEq, Repr

/-- Externally visible steps of `main` in `cortex/__init__.py`. -/
inductive SetupEvent where
  | promptDataPath
  | promptOutPath
  | wrotePathConf
  | promptBasic
  | fetchBasic
  | warnBasicNotFound
  | promptNeuro
  | fetchNeuro
  | warnNeuroNotFound
  | checkTheanorc
  | wroteTheanorc
  deriving DecidableEq, Repr

/-- Environment of one run of the setup script: validity of the two entered
paths, the yes/no answers, the fetcher outcomes, and whether a `.theanorc`
already exists. -/
structure SetupEnv where
  dataPathValid : Bool
  outPathValid : Bool
  answerBasic : Bool
  basicFetch : FetchOutcome
  answerNeuro : Bool
  neuroFetch : FetchOutcome
  theanorcExists : Bool
  deriving DecidableEq, Repr

/-- Embedding of `main` in `cortex/__init__.py` (lines 19-82): prompts for
the two paths (`ValueError` when one does not exist), writes the path
configuration, asks about the basic dataset and fetches it on a yes — an
`HTTPError` is caught and printed as a warning, any other exception
propagates — then asks about the neuroimaging dataset likewise, and finally
checks for `.theanorc`, writing a default one when absent. -/
def setupMain (env : SetupEnv) : Except String (List SetupEvent) :=
  let ev := [SetupEvent.promptDataPath]
  if !env.dataPathValid then .error "path does not exist. Please create it." else
  let ev := ev ++ [SetupEvent.promptOutPath]
  if !env.outPathValid then .error "path does not exist. Please create it." else
  let ev := ev ++ [SetupEvent.wrotePathConf, SetupEvent.promptBasic]
  match
    (if env.answerBasic then
      match env.basicFetch with
      | .success => .ok [SetupEvent.fetchBasic]
      | .httpError => .ok [SetupEvent.fetchBasic, SetupEvent.warnBasicNotFound]
      | .otherError msg => .error msg
    else (.ok [] : Except String (List SetupEvent))) with
  | .error e => .error e
  | .ok evBasic =>
    let ev := ev ++ evBasic ++ [SetupEvent.promptNeuro]
    match
      (if env.answerNeuro then
        match env.neuroFetch with
        | .success => .ok [SetupEvent.fetchNeuro]
        | .httpError => .ok [SetupEvent.fetchNeuro, SetupEvent.warnNeuroNotFound]
        | .otherError msg => .error msg
      else (.ok [] : Except String (List SetupEvent))) with
    | .error e => .error e
    | .ok evNeuro =>
      let ev := ev ++ evNeuro ++ [SetupEvent.checkTheanorc]
      .ok (ev ++ (if env.theanorcExists then [] else [SetupEvent.wroteTheanorc]))

/-- Fields of a successfully constructed machine: `Helmholtz.__init__`
stores the three components and sets `dim_h` to the prior's dimension. -/
theorem Helmholtz.init_fields (p c : MLP) (pr : Prior) (name : Option String)
    (hm : Helmholtz) (h : Helmholtz.init p c pr name = Except.ok hm) :
    hm.posterior = p ∧ hm.conditional = c ∧ hm.prior = pr ∧ hm.dim_h = pr.dim := by
  cases name with
  | some n =>
    simp only [Helmholtz.init, Except.ok.injEq] at h
    subst h; exact ⟨rfl, rfl, rfl, rfl⟩
  | none =>
    revert h
    cases hcls : pr.cls <;>
      simp only [Helmholtz.init, hcls, Except.ok.injEq, false_implies,
        reduceCtorEq] <;>
      (intro h; subst h; exact ⟨rfl, rfl, rfl, rfl⟩)

/-- Wiring of a successful `mlp_factory` outside the `dag` generative case:
the posterior maps `dim_in` to `dim_h` with a distribution attached, the
conditional maps `dim_h` to `dim_out` with the data distribution, and the
prior has dimension `dim_h`. -/
theorem Helmholtz.mlp_factory_wiring (dim_in dim_h dim_out : Nat) (dd : String)
    (prior : Option String) (rec_args gen_args : Option MLPArgs)
    (hdag : (gen_args.getD {}).type ≠ some "dag") (p c : MLP) (pr : Prior)
    (h : Helmholtz.mlp_factory dim_in dim_h dim_out dd prior rec_args gen_args =
      Except.ok (p, c, pr)) :
    p.dim_in = dim_in ∧ p.dim_out = dim_h ∧ p.distribution.isSome = true ∧
    c.dim_in = dim_h ∧ c.dim_out = dim_out ∧ c.distribution = some dd ∧
    pr.dim = dim_h := by
  simp only [Helmholtz.mlp_factory] at h
  split at h
  · exact absurd h (by simp)
  · split at h
    · exact absurd h (by simp)
    · rename_i ramatch
      split at h
      · exact absurd h (by simp)
      · rename_i output_name hout
        rw [if_neg hdag] at h
        simp only [MLP.factory] at h ramatch
        split at h
        · exact absurd h (by simp)
        · split at h
          · exact absurd h (by simp)
          · injection ramatch with rmeq
            simp only [Except.ok.injEq, Prod.mk.injEq] at h
            obtain ⟨hp, hc, hpr⟩ := h
            subst hp; subst hc; subst hpr
            rw [← rmeq]
            refine ⟨rfl, rfl, ?_, rfl, rfl, rfl, rfl⟩
            split <;> simp_all [Option.isSome_iff_ne_none]

/-- Sample network used in witnesses. -/
def mlpEx : MLP :=
  { dim_in := 4, dim_out := 2, distribution := some "binomial",
    params := [], n_params := 0, dist_has_kl := false, name := "net" }

/-- Sample prior of an unsupported runtime class. -/
def priorOtherEx : Prior :=
  { cls := .other, dim := 2, params := [], n_params := 0, has_kl := false,
    name := "dist" }

/-- Sample binomial prior. -/
def priorBinEx : Prior :=
  { cls := .binomial, dim := 2, params := [], n_params := 0, has_kl := false,
    name := "binomial" }

/-- The machine `Helmholtz.init` builds from the sample components with no
explicit name. -/
def hmEx : Helmholtz :=
  { posterior := mlpEx, conditional := mlpEx, prior := priorBinEx,
    dim_h := 2, name := "sbn" }

/-- C2, as written, is refuted: an unsupported prior class does not raise
when an explicit `name` is passed, because the `isinstance` chain of
`Helmholtz.__init__` runs only under `if name is None`.  Concretely,
construction with prior class `other` and name `"custom"` succeeds. -/
theorem C2_counterexample :
    Helmholtz.init mlpEx mlpEx priorOtherEx (some "custom") =
      Except.ok { posterior := mlpEx, conditional := mlpEx,
                  prior := priorOtherEx, dim_h := 2, name := "custom" } := rfl

/-- C2 (amended): `Helmholtz.__init__` raises `ValueError` exactly when no
explicit name is given and the prior's class is outside
Binomial/Gaussian/Logistic/Laplace; construction succeeds for the four
supported classes with or without a name, and for any prior when a name is
supplied. -/
theorem C2_init_prior_validation (p c : MLP) (pr : Prior) (name : Option String) :
    (∃ e, Helmholtz.init p c pr name = Except.error e) ↔
      name = none ∧ pr.cls = PriorClass.other := by
  cases name with
  | some n => simp [Helmholtz.init]
  | none => cases h : pr.cls <;> simp [Helmholtz.init, h]

/-- C4: a Helmholtz machine has exactly the three components `posterior`,
`conditional`, `prior`; construction stores them and establishes
`dim_h = prior.dim`; and `set_params`, the one operation that rewrites the
stored components, preserves that invariant. -/
theorem C4_components_and_dim_invariant :
    Helmholtz._components = ["posterior", "conditional", "prior"] ∧
    (∀ (p c : MLP) (pr : Prior) (name : Option String) (hm : Helmholtz),
      Helmholtz.init p c pr name = Except.ok hm →
      hm.posterior = p ∧ hm.conditional = c ∧ hm.prior = pr ∧
        hm.dim_h = hm.prior.dim) ∧
    (∀ hm : Helmholtz, hm.dim_h = hm.prior.dim →
      (Helmholtz.set_params hm).dim_h = (Helmholtz.set_params hm).prior.dim) := by
  refine ⟨rfl, ?_, ?_⟩
  · intro p c pr name hm h
    cases name with
    | some n =>
      simp only [Helmholtz.init, Except.ok.injEq] at h
      subst h; exact ⟨rfl, rfl, rfl, rfl⟩
    | none =>
      revert h
      cases hcls : pr.cls <;>
        simp only [Helmholtz.init, hcls, Except.ok.injEq, false_implies,
          reduceCtorEq] <;>
        (intro h; subst h; exact ⟨rfl, rfl, rfl, rfl⟩)
  · intro hm h
    simpa [Helmholtz.set_params] using h

/-- Witness for C4 at the sample components: the machine built with a
binomial prior and no explicit name satisfies the dimension invariant, and
still satisfies it after `set_params`. -/
theorem C4_witness :
    hmEx.dim_h = hmEx.prior.dim ∧
    (Helmholtz.set_params hmEx).dim_h = (Helmholtz.set_params hmEx).prior.dim :=
  ⟨(C4_components_and_dim_invariant.2.1 mlpEx mlpEx priorBinEx none hmEx rfl).2.2.2,
   C4_components_and_dim_invariant.2.2 hmEx
     (C4_components_and_dim_invariant.2.1 mlpEx mlpEx priorBinEx none hmEx rfl).2.2.2⟩

/-- C9: `get_params` concatenates the prior's, the conditional's and the
posterior's parameters in that order, and when each component's `n_params`
agrees with the length of its parameter list, slicing the concatenation
with `get_prior_params` (resp. `get_posterior_params`) returns exactly the
prior's (resp. the posterior's) parameters. -/
theorem C9_param_slicing_roundtrip (hm : Helmholtz)
    (h1 : hm.prior.n_params = hm.prior.params.length)
    (h2 : hm.conditional.n_params = hm.conditional.params.length)
    (h3 : hm.posterior.n_params = hm.posterior.params.length) :
    hm.get_params = hm.prior.params ++ hm.conditional.params ++ hm.posterior.params ∧
    hm.get_prior_params hm.get_params = hm.prior.params ∧
    hm.get_posterior_params hm.get_params = hm.posterior.params := by
  refine ⟨rfl, ?_, ?_⟩
  · rw [Helmholtz.get_prior_params, Helmholtz.get_params, h1, List.append_assoc,
      List.take_left]
  · rw [Helmholtz.get_posterior_params, Helmholtz.get_params, h1, h2, h3,
      ← List.length_append, List.drop_left, List.take_length]

/-- Sample machine with nonempty parameter lists, coherent `n_params`. -/
def hmParamsEx : Helmholtz :=
  { posterior := { mlpEx with params := [4, 5, 6], n_params := 3 },
    conditional := { mlpEx with params := [3], n_params := 1 },
    prior := { priorBinEx with params := [1, 2], n_params := 2 },
    dim_h := 2, name := "sbn" }

/-- Witness for C9 at a machine whose components hold the parameter lists
`[1, 2]`, `[3]` and `[4, 5, 6]`. -/
theorem C9_witness :
    hmParamsEx.get_params = [1, 2, 3, 4, 5, 6] ∧
    hmParamsEx.get_prior_params hmParamsEx.get_params = [1, 2] ∧
    hmParamsEx.get_posterior_params hmParamsEx.get_params = [4, 5, 6] := by
  have h := C9_param_slicing_roundtrip hmParamsEx rfl rfl rfl
  exact ⟨h.1, h.2.1, h.2.2⟩

/-- Generative-network keyword arguments carrying the mandatory `output`
key, used by witnesses. -/
def genArgsEx : MLPArgs := { output := some "mu" }

/-- The posterior network `mlp_factory` builds for `dim_in = 4`, `dim_h = 2`
under default recognition arguments. -/
def postFactEx : MLP :=
  { dim_in := 4, dim_out := 2, distribution := some "binomial",
    params := [], n_params := 0, dist_has_kl := false, name := "" }

/-- The conditional network `mlp_factory` builds for `dim_h = 2`,
`dim_out = 3`. -/
def condFactEx3 : MLP :=
  { dim_in := 2, dim_out := 3, distribution := some "binomial",
    params := [], n_params := 0, dist_has_kl := false, name := "" }

/-- The conditional network `mlp_factory` builds for `dim_h = 2`,
`dim_out = 4`. -/
def condFactEx4 : MLP :=
  { dim_in := 2, dim_out := 4, distribution := some "binomial",
    params := [], n_params := 0, dist_has_kl := false, name := "" }

/-- The prior `mlp_factory` builds for `dim_h = 2` under defaults. -/
def priorFactEx : Prior := Prior.make .binomial 2

/-- The machine `Helmholtz.factory 4 2` builds with `dim_out` omitted and
the sample generative arguments. -/
def hmFactEx : Helmholtz :=
  { posterior := postFactEx, conditional := condFactEx4, prior := priorFactEx,
    dim_h := 2, name := "sbn" }

/-- C5: outside the `dag` generative case, a successful `mlp_factory` wires
the three sub-networks to fit each other: the posterior maps `dim_in` to
`dim_h`, the conditional maps `dim_h` to `dim_out` with output distribution
`data_distribution`, the prior has dimension `dim_h`, and both networks
carry a distribution. -/
theorem C5_mlp_factory_composition (dim_in dim_h dim_out : Nat)
    (data_distribution : String) (prior : Option String)
    (rec_args gen_args : Option MLPArgs)
    (hdag : (gen_args.getD {}).type ≠ some "dag") (p c : MLP) (pr : Prior)
    (h : Helmholtz.mlp_factory dim_in dim_h dim_out data_distribution prior
      rec_args gen_args = Except.ok (p, c, pr)) :
    p.dim_in = dim_in ∧ p.dim_out = dim_h ∧
    c.dim_in = dim_h ∧ c.dim_out = dim_out ∧
    c.distribution = some data_distribution ∧ pr.dim = dim_h ∧
    p.distribution ≠ none ∧ c.distribution ≠ none := by
  obtain ⟨h1, h2, h3, h4, h5, h6, h7⟩ :=
    Helmholtz.mlp_factory_wiring dim_in dim_h dim_out data_distribution prior
      rec_args gen_args hdag p c pr h
  exact ⟨h1, h2, h4, h5, h6, h7, Option.isSome_iff_ne_none.mp h3, by simp [h6]⟩

/-- Witness for C5 at `dim_in = 4`, `dim_h = 2`, `dim_out = 3`,
`data_distribution = "binomial"` and the sample generative arguments. -/
theorem C5_witness :
    postFactEx.dim_in = 4 ∧ postFactEx.dim_out = 2 ∧
    condFactEx3.dim_in = 2 ∧ condFactEx3.dim_out = 3 ∧
    condFactEx3.distribution = some "binomial" ∧ priorFactEx.dim = 2 ∧
    postFactEx.distribution ≠ none ∧ condFactEx3.distribution ≠ none :=
  C5_mlp_factory_composition 4 2 3 "binomial" none none (some genArgsEx)
    (by decide) postFactEx condFactEx3 priorFactEx rfl

/-- C10: `Helmholtz.factory` with `dim_out` omitted and `data_distribution`
at its declared default `'binomial'` builds a machine whose conditional
network maps the latent space back onto the input space (`dim_out = dim_in`)
with the binomial output distribution (outside the `dag` generative case). -/
theorem C10_factory_default_output_space (dim_in dim_h : Nat)
    (prior : Option String) (rec_args gen_args : Option MLPArgs)
    (hdag : (gen_args.getD {}).type ≠ some "dag") (hm : Helmholtz)
    (h : Helmholtz.factory dim_in dim_h none (some "binomial") prior rec_args
      gen_args = Except.ok hm) :
    hm.conditional.dim_in = dim_h ∧ hm.conditional.dim_out = dim_in ∧
    hm.conditional.distribution = some "binomial" := by
  simp only [Helmholtz.factory, Option.getD_none] at h
  split at h
  · exact absurd h (by simp)
  · rename_i trip p cnd pr hmf
    obtain ⟨hpost, hcond, hprior, hdim⟩ := Helmholtz.init_fields p cnd pr none hm h
    obtain ⟨_, _, _, h4, h5, h6, _⟩ :=
      Helmholtz.mlp_factory_wiring dim_in dim_h dim_in "binomial" prior
        rec_args gen_args hdag p cnd pr hmf
    rw [hcond]
    exact ⟨h4, h5, h6⟩

/-- Witness for C10 at `dim_in = 4`, `dim_h = 2` with the sample generative
arguments: the built conditional maps the 2-dimensional latent space onto
the 4-dimensional input space with the binomial distribution. -/
theorem C10_witness :
    hmFactEx.conditional.dim_in = 2 ∧ hmFactEx.conditional.dim_out = 4 ∧
    hmFactEx.conditional.distribution = some "binomial" :=
  C10_factory_default_output_space 4 2 none none (some genArgsEx) (by decide)
    hmFactEx rfl

/-- C3: `unpack` with `data_distribution` missing raises `ValueError` at
once (in particular before `Helmholtz.factory` runs); with it provided and
the factory succeeding, `unpack` returns the model list headed by the
composed machine followed by its posterior, conditional and prior, together
with the untouched saved-parameter keyword arguments (and the trailing
`None` of the source's `return models, model_args, None`). -/
theorem C3_unpack_validation (dim_in dim_h : Nat) (dim_out : Option Nat)
    (prior : Option String) (rec_args gen_args : Option MLPArgs)
    (model_args : List (String × Int)) :
    (unpack dim_in dim_h dim_out prior none rec_args gen_args model_args =
      Except.error
        "data_distribution must be set. Pass data_distribution as a keyword argument.") ∧
    (∀ (dd : String) (m : Helmholtz),
      Helmholtz.factory dim_in dim_h none (some dd) prior rec_args gen_args =
        Except.ok m →
      unpack dim_in dim_h dim_out prior (some dd) rec_args gen_args model_args =
        Except.ok ([.model m, .net m.posterior, .net m.conditional, .dist m.prior],
          model_args, none)) := by
  constructor
  · rfl
  · intro dd m hf
    simp only [unpack, hf]

/-- Witness for C3: at `dim_in = 4`, `dim_h = 2` with the sample generative
arguments, `unpack` without `data_distribution` errors, and with
`data_distribution = "binomial"` returns the machine and its components. -/
theorem C3_witness :
    (unpack 4 2 none none none none (some genArgsEx) [("W", 7)] =
      Except.error
        "data_distribution must be set. Pass data_distribution as a keyword argument.") ∧
    (unpack 4 2 none none (some "binomial") none (some genArgsEx) [("W", 7)] =
      Except.ok ([.model hmFactEx, .net hmFactEx.posterior,
        .net hmFactEx.conditional, .dist hmFactEx.prior], [("W", 7)], none)) :=
  ⟨(C3_unpack_validation 4 2 none none none (some genArgsEx) [("W", 7)]).1,
   (C3_unpack_validation 4 2 none none none (some genArgsEx) [("W", 7)]).2
     "binomial" hmFactEx rfl⟩

/-- C8: the numerically stabilized log-marginal core of
`Helmholtz.log_marginal` coincides exactly with the direct
`log_sum_exp - log N` form used in `Helmholtz.__call__`: the max-shift
cancels.  The cancellation holds for any shift, in particular the maximum
over the sample axis. -/
theorem C8_log_marginal_stabilization_exact {n : Nat} (v : Fin (n + 1) → ℝ) :
    log_marginal_stabilized v = log_marginal_direct v := by
  have key : ∀ mx : ℝ,
      Real.log ((∑ i, Real.exp (v i - mx)) / ((n : ℝ) + 1)) + mx =
        Real.log (∑ i, Real.exp (v i)) - Real.log ((n : ℝ) + 1) := by
    intro mx
    have hpos : (0 : ℝ) < ∑ i, Real.exp (v i) :=
      Finset.sum_pos (fun i _ => Real.exp_pos _) Finset.univ_nonempty
    have hshift : (∑ i, Real.exp (v i - mx)) =
        (∑ i, Real.exp (v i)) * Real.exp (-mx) := by
      rw [Finset.sum_mul]
      exact Finset.sum_congr rfl fun i _ => by
        rw [← Real.exp_add, sub_eq_add_neg]
    rw [hshift, Real.log_div (by positivity) (by positivity),
      Real.log_mul (ne_of_gt hpos) (Real.exp_ne_zero _), Real.log_exp]
    ring
  exact key _

/-- C7: every `HTTPError` raised by either fetcher is caught and reported
as a printed warning rather than propagated: in any run whose attempted
fetches raise at most `HTTPError`, the script completes; a failing
basic-data fetch produces its warning and the run still reaches the
neuroimaging prompt and the `.theanorc` check; a failing neuroimaging fetch
produces its warning likewise; and there is no retry or recovery — each
fetch runs exactly once when its prompt is answered yes, and never
otherwise. -/
theorem C7_fetch_error_warns_and_continues (env : SetupEnv)
    (hd : env.dataPathValid = true) (ho : env.outPathValid = true)
    (hb : env.answerBasic = true →
      ∀ msg, env.basicFetch ≠ FetchOutcome.otherError msg)
    (hn : env.answerNeuro = true →
      ∀ msg, env.neuroFetch ≠ FetchOutcome.otherError msg) :
    ∃ t, setupMain env = Except.ok t ∧
      (env.answerBasic = true ∧ env.basicFetch = FetchOutcome.httpError →
        SetupEvent.warnBasicNotFound ∈ t) ∧
      (env.answerNeuro = true ∧ env.neuroFetch = FetchOutcome.httpError →
        SetupEvent.warnNeuroNotFound ∈ t) ∧
      SetupEvent.promptNeuro ∈ t ∧
      SetupEvent.checkTheanorc ∈ t ∧
      t.count SetupEvent.fetchBasic = (if env.answerBasic then 1 else 0) ∧
      t.count SetupEvent.fetchNeuro = (if env.answerNeuro then 1 else 0) := by
  obtain ⟨dp, op, ab, bf, an, nf, te⟩ := env
  dsimp only at hd ho hb hn
  subst hd; subst ho
  cases ab <;> cases bf <;> cases an <;> cases nf <;> cases te <;>
    first
    | exact absurd rfl (hb rfl _)
    | exact absurd rfl (hn rfl _)
    | (refine ⟨_, rfl, ?_, ?_, ?_, ?_, ?_, ?_⟩ <;>
        simp [List.count_append, List.count_cons])

/-- Sample setup environment: valid paths, both downloads requested, both
fetches failing with `HTTPError`, no preexisting `.theanorc`. -/
def setupEnvEx : SetupEnv :=
  { dataPathValid := true, outPathValid := true, answerBasic := true,
    basicFetch := .httpError, answerNeuro := true, neuroFetch := .httpError,
    theanorcExists := false }

/-- Witness for C7 at the sample environment: both fetch failures are
warned, the run completes, and each fetch happened exactly once. -/
theorem C7_witness :
    ∃ t, setupMain setupEnvEx = Except.ok t ∧
      (setupEnvEx.answerBasic = true ∧
          setupEnvEx.basicFetch = FetchOutcome.httpError →
        SetupEvent.warnBasicNotFound ∈ t) ∧
      (setupEnvEx.answerNeuro = true ∧
          setupEnvEx.neuroFetch = FetchOutcome.httpError →
        SetupEvent.warnNeuroNotFound ∈ t) ∧
      SetupEvent.promptNeuro ∈ t ∧
      SetupEvent.checkTheanorc ∈ t ∧
      t.count SetupEvent.fetchBasic = (if setupEnvEx.answerBasic then 1 else 0) ∧
      t.count SetupEvent.fetchNeuro = (if setupEnvEx.answerNeuro then 1 else 0) :=
  C7_fetch_error_warns_and_continues setupEnvEx rfl rfl
    (fun _ _ h => FetchOutcome.noConfusion h)
    (fun _ _ h => FetchOutcome.noConfusion h)

/-- C1, as written, is refuted on the flag precedence: with both
`sleep_phase` and `reweight` set, the cost is the sleep-phase objective,
not the importance-reweighted estimator the claim assigns to
`reweight = True`.  Concretely, at the sample machine with `reweight` and
`sleep_phase` both true, the `'cost'` entry differs from the reweighted
estimator. -/
theorem C1_counterexample :
    ¬ ((Helmholtz.call hmEx (Expr.var "x") (Expr.var "y") none 2 false true
        false true).results.lookup "cost" =
      some (CallGraph.reweightCost hmEx (Expr.var "x") (Expr.var "y") none 2)) := by
  decide

/-- C1 (amended): every call builds the composed graph and returns a results
dictionary that always contains the keys `lower_bound`, `cost`, `-log p(x)`,
`-log p(x|h)`, `H(p)`, `H(q)` and `log ESS`; the `cost` entry is the
sleep-phase objective when `sleep_phase` is set, otherwise the
importance-reweighted estimator when `reweight` or `reweight_gen_only` is
set, and otherwise the negative variational lower-bound terms
`recon_term + KL_term + posterior_term` summed over the batch and averaged
over samples. -/
theorem C1_call_objectives (m : Helmholtz) (x y : Expr) (qk? : Option Expr)
    (n : Nat) (pg rw rwg sp : Bool) :
    ((Helmholtz.call m x y qk? n pg rw rwg sp).results.lookup "lower_bound").isSome = true ∧
    ((Helmholtz.call m x y qk? n pg rw rwg sp).results.lookup "cost").isSome = true ∧
    ((Helmholtz.call m x y qk? n pg rw rwg sp).results.lookup "-log p(x)").isSome = true ∧
    ((Helmholtz.call m x y qk? n pg rw rwg sp).results.lookup "-log p(x|h)").isSome = true ∧
    ((Helmholtz.call m x y qk? n pg rw rwg sp).results.lookup "H(p)").isSome = true ∧
    ((Helmholtz.call m x y qk? n pg rw rwg sp).results.lookup "H(q)").isSome = true ∧
    ((Helmholtz.call m x y qk? n pg rw rwg sp).results.lookup "log ESS").isSome = true ∧
    (Helmholtz.call m x y qk? n pg rw rwg sp).results.lookup "cost" =
      some (if sp then CallGraph.sleepCost m x y qk? n
        else if rw then CallGraph.reweightCost m x y qk? n
        else if rwg then CallGraph.reweightGenCost m x y qk? n
        else CallGraph.vlbCost m x y qk? n pg rw rwg) := by
  obtain ⟨post, cond, pr, dimh, mname⟩ := m
  obtain ⟨pcls, pdim, pparams, pnp, phkl, pname⟩ := pr
  obtain ⟨pdi, pdo, pdist, pparams2, pnp2, phkl2, pname2⟩ := post
  cases sp <;> cases rw <;> cases rwg <;> cases pg <;> cases phkl <;> cases phkl2 <;>
    exact ⟨rfl, rfl, rfl, rfl, rfl, rfl, rfl, rfl⟩

/-- C6: with `sleep_phase` set the cost is the wake-sleep split: the
generative term reweights `log p(y|h) + log p(h)` by the importance weights
`w_tilde`, the recognition term scores the prior samples `h_s` under the
posterior evaluated on the data `y_s` sampled from the conditional, and the
constants list ends with `y_s` and `w_tilde` appended, so gradients do not
pass through them. -/
theorem C6_sleep_phase_objectives (m : Helmholtz) (x y : Expr)
    (qk? : Option Expr) (n : Nat) (pg rw rwg : Bool) :
    (Helmholtz.call m x y qk? n pg rw rwg true).results.lookup "cost" =
      some (CallGraph.sleepCost m x y qk? n) ∧
    (Helmholtz.call m x y qk? n pg rw rwg true).constants =
      CallGraph.baseConstants qk? pg ++
        [CallGraph.y_s m y n, CallGraph.w_tilde m x y qk? n] := by
  obtain ⟨post, cond, pr, dimh, mname⟩ := m
  obtain ⟨pcls, pdim, pparams, pnp, phkl, pname⟩ := pr
  obtain ⟨pdi, pdo, pdist, pparams2, pnp2, phkl2, pname2⟩ := post
  cases qk? <;> cases pg <;> cases rw <;> cases rwg <;> cases phkl <;>
    cases phkl2 <;> exact ⟨rfl, rfl⟩

end Cortex
